import Mathlib

/-!
Verification of the bracket progression engine and pick codec of
`bracket.build` (url-encoding module) against its specification.

The codec (`getWinnerCode`, `getAllMatchupsOrdered`, `encodeBracketPicks`,
`decodeBracketPicks`, `applyCode`, `applyPicksToFreshBracket`) is translated
from `src/lib/url-encoding.ts`.  The playoff derivation rules
(`createInitialBracket`, `calculateDivisionalMatchups`,
`calculateChampionshipMatchup`, `isBracketComplete`) live in the repository's
`playoff-rules` module whose source is not available; those definitions are
modelled from the specification (spec sections 3, 4.1, 4.2) and are marked as
such.  The JavaScript platform primitives `btoa`/`atob` are modelled after
the WHATWG forgiving-base64 algorithms that define them.

JavaScript numeric notes: all bit-packed values fit in 26 bits, so the
signed-32-bit semantics of `|`, `<<` and `>>` coincide with the Nat
operations `|||`, `<<<` and `>>>` used here; indexing `bytes[i]` past the
end of a `Uint8Array` yields `undefined`, which coerces to 0 inside `|`,
embedded below as `List.getD _ _ 0`.
-/

namespace BracketBuild

inductive Conference where
  | AFC
  | NFC
deriving DecidableEq, Repr

/-- Modelled from the spec: Team reference data — unique id, conference
affiliation, seed (1–7 per conference). -/
structure SeededTeam where
  id : Nat
  conf : Conference
  seed : Nat
deriving DecidableEq, Repr

/-- Modelled from the spec: the 14 reference teams get league-unique ids
(AFC seeds 1–7 ↦ ids 1–7, NFC seeds 1–7 ↦ ids 9–15). -/
def mkTeam (conf : Conference) (seed : Nat) : SeededTeam :=
  ⟨(match conf with | Conference.AFC => 0 | Conference.NFC => 8) + seed, conf, seed⟩

/-- A single game slot: stable id, two optional team slots, optional winner. -/
structure Matchup where
  id : String
  homeTeam : Option SeededTeam
  awayTeam : Option SeededTeam
  winner : Option SeededTeam
deriving DecidableEq, Repr

/-- One conference: 3 Wild Card, 2 Divisional, 1 Championship matchups. -/
structure ConferenceState where
  wildCard0 : Matchup
  wildCard1 : Matchup
  wildCard2 : Matchup
  divisional0 : Matchup
  divisional1 : Matchup
  championship : Matchup
deriving DecidableEq, Repr

structure BracketState where
  afc : ConferenceState
  nfc : ConferenceState
  superBowl : Matchup
  userName : String
  name : String
  isComplete : Bool
deriving DecidableEq, Repr

/-- home/away pair returned by the derivation rules. -/
structure TeamPairing where
  home : Option SeededTeam
  away : Option SeededTeam
deriving DecidableEq, Repr

structure DivisionalMatchups where
  matchup1 : TeamPairing
  matchup2 : TeamPairing
deriving DecidableEq, Repr

/-- Modelled from the spec (§4.2 `createInitialBracket`): fixed initial wild
card seeding 2v7, 3v6, 4v5 (seed 1 bye) for both conferences, all later
rounds empty, `isComplete = false`. -/
def createInitialBracket (userName : String) : BracketState :=
  { afc :=
      { wildCard0 := ⟨"afc-wc-1", some (mkTeam Conference.AFC 2), some (mkTeam Conference.AFC 7), none⟩
        wildCard1 := ⟨"afc-wc-2", some (mkTeam Conference.AFC 3), some (mkTeam Conference.AFC 6), none⟩
        wildCard2 := ⟨"afc-wc-3", some (mkTeam Conference.AFC 4), some (mkTeam Conference.AFC 5), none⟩
        divisional0 := ⟨"afc-div-1", none, none, none⟩
        divisional1 := ⟨"afc-div-2", none, none, none⟩
        championship := ⟨"afc-champ", none, none, none⟩ }
    nfc :=
      { wildCard0 := ⟨"nfc-wc-1", some (mkTeam Conference.NFC 2), some (mkTeam Conference.NFC 7), none⟩
        wildCard1 := ⟨"nfc-wc-2", some (mkTeam Conference.NFC 3), some (mkTeam Conference.NFC 6), none⟩
        wildCard2 := ⟨"nfc-wc-3", some (mkTeam Conference.NFC 4), some (mkTeam Conference.NFC 5), none⟩
        divisional0 := ⟨"nfc-div-1", none, none, none⟩
        divisional1 := ⟨"nfc-div-2", none, none, none⟩
        championship := ⟨"nfc-champ", none, none, none⟩ }
    superBowl := ⟨"super-bowl", none, none, none⟩
    userName := userName
    name := "My Bracket"
    isComplete := false }

/-- higher seed (lower seed number) hosts. -/
def pairBySeed (a b : SeededTeam) : TeamPairing :=
  if a.seed ≤ b.seed then ⟨some a, some b⟩ else ⟨some b, some a⟩

/-- Modelled from the spec (§4.1 `computeDivisionalPairing`): NFL re-seeding —
the #1 seed plays the lowest-remaining seed (largest seed number) among the
three wild-card winners, the other two wild-card winners play each other,
higher seed hosts.  If any input winner is absent the pairings cannot yet be
determined and every team slot stays absent; the function never fails. -/
def calculateDivisionalMatchups (conf : Conference) (wcWinners : List (Option SeededTeam)) :
    DivisionalMatchups :=
  match wcWinners.getD 0 none, wcWinners.getD 1 none, wcWinners.getD 2 none with
  | some w1, some w2, some w3 =>
    let top := mkTeam conf 1
    if w2.seed ≤ w1.seed ∧ w3.seed ≤ w1.seed then
      ⟨⟨some top, some w1⟩, pairBySeed w2 w3⟩
    else if w3.seed ≤ w2.seed then
      ⟨⟨some top, some w2⟩, pairBySeed w1 w3⟩
    else
      ⟨⟨some top, some w3⟩, pairBySeed w1 w2⟩
  | _, _, _ => ⟨⟨none, none⟩, ⟨none, none⟩⟩

/-- Modelled from the spec (§4.1 `computeChampionshipPairing`): the two
divisional winners meet, higher remaining seed is home; absent winners
propagate as absent slots. -/
def calculateChampionshipMatchup (divWinners : List (Option SeededTeam)) : TeamPairing :=
  match divWinners.getD 0 none, divWinners.getD 1 none with
  | some a, some b => pairBySeed a b
  | _, _ => ⟨none, none⟩

/-- Matchups in the codec's fixed order (url-encoding.ts `getAllMatchupsOrdered`):
0–2 AFC Wild Card, 3–5 NFC Wild Card, 6–7 AFC Divisional, 8–9 NFC Divisional,
10 AFC Championship, 11 NFC Championship, 12 Super Bowl. -/
def getAllMatchupsOrdered (bracket : BracketState) : List Matchup :=
  [ bracket.afc.wildCard0, bracket.afc.wildCard1, bracket.afc.wildCard2,
    bracket.nfc.wildCard0, bracket.nfc.wildCard1, bracket.nfc.wildCard2,
    bracket.afc.divisional0, bracket.afc.divisional1,
    bracket.nfc.divisional0, bracket.nfc.divisional1,
    bracket.afc.championship, bracket.nfc.championship,
    bracket.superBowl ]

/-- Modelled from the spec (§4.2 `isBracketComplete`): true iff all 13
matchups have a non-empty winner. -/
def isBracketComplete (bracket : BracketState) : Bool :=
  (getAllMatchupsOrdered bracket).all (fun m => m.winner.isSome)

/-- url-encoding.ts `getWinnerCode`: 0 = no pick, 1 = home team, 2 = away team
(winner matching neither recorded team falls back to 0). -/
def getWinnerCode (matchup : Matchup) : Nat :=
  match matchup.winner with
  | none => 0
  | some w =>
    if matchup.homeTeam.map (fun t => t.id) = some w.id then 1
    else if matchup.awayTeam.map (fun t => t.id) = some w.id then 2
    else 0

/-- url-encoding.ts encode loop: `packed |= codes[i] << (i * 2)` for each
index `i` of `codes`. -/
def packCodes (codes : List Nat) : Nat :=
  (List.range codes.length).foldl (fun packed i => packed ||| codes.getD i 0 <<< (i * 2)) 0

def bracketCodes (bracket : BracketState) : List Nat :=
  (getAllMatchupsOrdered bracket).map getWinnerCode

def bracketPacked (bracket : BracketState) : Nat :=
  packCodes (bracketCodes bracket)

/-- url-encoding.ts byte split: `bytes[j] = (packed >> 8*j) & 0xff`. -/
def bracketBytes (bracket : BracketState) : List Nat :=
  [ bracketPacked bracket >>> 0 &&& 0xff
  , bracketPacked bracket >>> 8 &&& 0xff
  , bracketPacked bracket >>> 16 &&& 0xff
  , bracketPacked bracket >>> 24 &&& 0xff ]

/-- The base64 alphabet in index order (RFC 4648 table used by btoa/atob). -/
def b64Alphabet : List Char :=
  "ABCDEFGHIJKLMNOPQRSTUVWXYZabcdefghijklmnopqrstuvwxyz0123456789+/".toList

def b64Char (n : Nat) : Char :=
  b64Alphabet.getD n 'A'

/-- Modelled from the WHATWG forgiving-base64 encode used by `btoa`:
3-byte groups become 4 alphabet characters, a tail of 1 or 2 bytes is padded
with `=`. -/
def btoaBytes : List Nat → List Char
  | [] => []
  | [b0] => [b64Char (b0 / 4), b64Char (b0 % 4 * 16), '=', '=']
  | [b0, b1] => [b64Char (b0 / 4), b64Char (b0 % 4 * 16 + b1 / 16), b64Char (b1 % 16 * 4), '=']
  | b0 :: b1 :: b2 :: rest =>
      b64Char (b0 / 4) :: b64Char (b0 % 4 * 16 + b1 / 16) ::
        b64Char (b1 % 16 * 4 + b2 / 64) :: b64Char (b2 % 64) :: btoaBytes rest

/-- url-encoding.ts encode-side global replacement of a plus sign by a hyphen
and a slash by an underscore, applied per character. -/
def base64UrlSubst (c : Char) : Char :=
  if c = '+' then '-' else if c = '/' then '_' else c

/-- url-encoding.ts decode-side global replacement of a hyphen by a plus sign
and an underscore by a slash, applied per character. -/
def base64UrlRestore (c : Char) : Char :=
  if c = '-' then '+' else if c = '_' then '/' else c

/-- url-encoding.ts trailing-padding strip: drop all trailing `=`. -/
def stripTrailingEq (s : List Char) : List Char :=
  (s.reverse.dropWhile (fun c => c = '=')).reverse

/-- url-encoding.ts `encodeBracketPicks`: pack the 13 winner codes, render the
4 bytes as base64, make URL-safe, strip padding. -/
def encodeBracketPicks (bracket : BracketState) : String :=
  String.mk (stripTrailingEq ((btoaBytes (bracketBytes bracket)).map base64UrlSubst))

/-- url-encoding.ts decode loop `while (base64.length % 4) base64 += "="`. -/
def padBase64 (s : List Char) : List Char :=
  if s.length % 4 = 0 then s else s ++ List.replicate (4 - s.length % 4) '='

/-- WHATWG forgiving-base64 step: when the length is a multiple of 4, remove
one or two trailing `=`. -/
def stripPad (s : List Char) : List Char :=
  match s.reverse with
  | '=' :: '=' :: rest => rest.reverse
  | '=' :: rest => rest.reverse
  | _ => s

/-- ASCII whitespace ignored by forgiving-base64. -/
def isB64Whitespace (c : Char) : Bool :=
  c.toNat = 9 || c.toNat = 10 || c.toNat = 12 || c.toNat = 13 || c.toNat = 32

/-- Index of a character in the base64 alphabet (failure = invalid char). -/
def b64Index (c : Char) : Option Nat :=
  if 65 ≤ c.toNat ∧ c.toNat ≤ 90 then some (c.toNat - 65)
  else if 97 ≤ c.toNat ∧ c.toNat ≤ 122 then some (c.toNat - 97 + 26)
  else if 48 ≤ c.toNat ∧ c.toNat ≤ 57 then some (c.toNat - 48 + 52)
  else if c = '+' then some 62
  else if c = '/' then some 63
  else none

/-- WHATWG forgiving-base64: 4 sextets give 3 bytes; a tail of 2 or 3 sextets
gives 1 or 2 bytes, leftover bits discarded. -/
def sextetsToBytes : List Nat → List Nat
  | s0 :: s1 :: s2 :: s3 :: rest =>
      (s0 * 4 + s1 / 16) :: (s1 % 16 * 16 + s2 / 4) :: (s2 % 4 * 64 + s3) :: sextetsToBytes rest
  | [s0, s1] => [s0 * 4 + s1 / 16]
  | [s0, s1, s2] => [s0 * 4 + s1 / 16, s1 % 16 * 16 + s2 / 4]
  | _ => []

/-- Modelled from the WHATWG forgiving-base64 decode defining `atob`:
strip ASCII whitespace, strip up to two trailing `=` when the length is a
multiple of 4, fail on length ≡ 1 (mod 4) or characters outside the base64
alphabet, otherwise decode sextets to bytes. -/
def atob (s : List Char) : Option (List Nat) :=
  let data := s.filter (fun c => !isB64Whitespace c)
  let data := if data.length % 4 = 0 then stripPad data else data
  if data.length % 4 = 1 then none
  else
    match data.mapM b64Index with
    | none => none
    | some sextets => some (sextetsToBytes sextets)

/-- url-encoding.ts `decodeBracketPicks`: restore standard base64, pad,
base64-decode, rebuild the 32-bit packed value (missing bytes read as 0,
as JavaScript coerces `undefined` to 0 under `|`), extract 13 two-bit codes.
`none` embeds the thrown `InvalidCharacterError`/`CodecError`. -/
def decodeBracketPicks (encoded : String) : Option (List Nat) :=
  let base64 := padBase64 (encoded.toList.map base64UrlRestore)
  match atob base64 with
  | none => none
  | some bytes =>
    let packed := bytes.getD 0 0 ||| bytes.getD 1 0 <<< 8 |||
      bytes.getD 2 0 <<< 16 ||| bytes.getD 3 0 <<< 24
    some ((List.range 13).map (fun i => packed >>> (i * 2) &&& 0x03))

/-- url-encoding.ts `applyCode` (inside `applyPicksToFreshBracket`): code 0
leaves the matchup alone, code 1 assigns the home slot as winner, any other
non-zero code assigns the away slot (JavaScript `code === 1 ? home : away`). -/
def applyCode (matchup : Matchup) (code : Nat) : Matchup :=
  if code = 0 then matchup
  else { matchup with winner := if code = 1 then matchup.homeTeam else matchup.awayTeam }

/-- url-encoding.ts `applyPicksToFreshBracket`: build a fresh bracket, apply
wild-card codes, re-derive divisional slots from the applied wild-card
winners, apply divisional codes, likewise championships and Super Bowl,
finally recompute `isComplete`.  `codes.getD i 0` embeds `codes[i]` for the
13-code lists this operation receives. -/
def applyPicksToFreshBracket (codes : List Nat) (userName : String) : BracketState :=
  let bracket := createInitialBracket userName
  let afcWC0 := applyCode bracket.afc.wildCard0 (codes.getD 0 0)
  let afcWC1 := applyCode bracket.afc.wildCard1 (codes.getD 1 0)
  let afcWC2 := applyCode bracket.afc.wildCard2 (codes.getD 2 0)
  let nfcWC0 := applyCode bracket.nfc.wildCard0 (codes.getD 3 0)
  let nfcWC1 := applyCode bracket.nfc.wildCard1 (codes.getD 4 0)
  let nfcWC2 := applyCode bracket.nfc.wildCard2 (codes.getD 5 0)
  let afcWcWinners := [afcWC0.winner, afcWC1.winner, afcWC2.winner]
  let nfcWcWinners := [nfcWC0.winner, nfcWC1.winner, nfcWC2.winner]
  let afcDiv := calculateDivisionalMatchups Conference.AFC afcWcWinners
  let afcDiv0 := applyCode
    { bracket.afc.divisional0 with homeTeam := afcDiv.matchup1.home, awayTeam := afcDiv.matchup1.away }
    (codes.getD 6 0)
  let afcDiv1 := applyCode
    { bracket.afc.divisional1 with homeTeam := afcDiv.matchup2.home, awayTeam := afcDiv.matchup2.away }
    (codes.getD 7 0)
  let nfcDiv := calculateDivisionalMatchups Conference.NFC nfcWcWinners
  let nfcDiv0 := applyCode
    { bracket.nfc.divisional0 with homeTeam := nfcDiv.matchup1.home, awayTeam := nfcDiv.matchup1.away }
    (codes.getD 8 0)
  let nfcDiv1 := applyCode
    { bracket.nfc.divisional1 with homeTeam := nfcDiv.matchup2.home, awayTeam := nfcDiv.matchup2.away }
    (codes.getD 9 0)
  let afcChampPair := calculateChampionshipMatchup [afcDiv0.winner, afcDiv1.winner]
  let afcChampionship := applyCode
    { bracket.afc.championship with homeTeam := afcChampPair.home, awayTeam := afcChampPair.away }
    (codes.getD 10 0)
  let nfcChampPair := calculateChampionshipMatchup [nfcDiv0.winner, nfcDiv1.winner]
  let nfcChampionship := applyCode
    { bracket.nfc.championship with homeTeam := nfcChampPair.home, awayTeam := nfcChampPair.away }
    (codes.getD 11 0)
  let superBowl := applyCode
    { bracket.superBowl with homeTeam := afcChampionship.winner, awayTeam := nfcChampionship.winner }
    (codes.getD 12 0)
  let result : BracketState :=
    { bracket with
      afc := { wildCard0 := afcWC0, wildCard1 := afcWC1, wildCard2 := afcWC2,
               divisional0 := afcDiv0, divisional1 := afcDiv1, championship := afcChampionship }
      nfc := { wildCard0 := nfcWC0, wildCard1 := nfcWC1, wildCard2 := nfcWC2,
               divisional0 := nfcDiv0, divisional1 := nfcDiv1, championship := nfcChampionship }
      superBowl := superBowl }
  { result with isComplete := isBracketComplete result }

/-- A bracket in which only the Super Bowl is decided, with the home team as
winner, and every other matchup undecided (spec §8 item 7). -/
def onlySuperBowlHomeBracket : BracketState :=
  let B := createInitialBracket "Owner"
  { B with superBowl := { B.superBowl with
      homeTeam := some (mkTeam Conference.AFC 1), awayTeam := some (mkTeam Conference.NFC 1),
      winner := some (mkTeam Conference.AFC 1) } }

/-- The per-matchup code derivation in the specification's words (§4.3):
winner absent → 0, winner's id equal to the home team's id → 1, equal to the
away team's id → 2, otherwise (inconsistent state) → 0. -/
def winnerCodeSpec (matchup : Matchup) : Nat :=
  match matchup.winner with
  | none => 0
  | some w =>
    if matchup.homeTeam.any (fun h => w.id == h.id) then 1
    else if matchup.awayTeam.any (fun a => w.id == a.id) then 2
    else 0

/-- Spec §3 invariant 4 plus Team id uniqueness: a recorded winner requires
both slots populated, must be one of the two teams, and the two teams are
distinct. -/
def ValidMatchupWinner (m : Matchup) : Prop :=
  ∀ w, m.winner = some w →
    ∃ h a, m.homeTeam = some h ∧ m.awayTeam = some a ∧ (w = h ∨ w = a) ∧ h.id ≠ a.id

/-- Spec §3 invariants 1 and 4: every round's team slots are exactly the ones
derived (via §4.1) from the winners feeding it, and winners are legal. -/
structure ValidBracket (S : BracketState) : Prop where
  afc0h : S.afc.wildCard0.homeTeam = some (mkTeam Conference.AFC 2)
  afc0a : S.afc.wildCard0.awayTeam = some (mkTeam Conference.AFC 7)
  afc1h : S.afc.wildCard1.homeTeam = some (mkTeam Conference.AFC 3)
  afc1a : S.afc.wildCard1.awayTeam = some (mkTeam Conference.AFC 6)
  afc2h : S.afc.wildCard2.homeTeam = some (mkTeam Conference.AFC 4)
  afc2a : S.afc.wildCard2.awayTeam = some (mkTeam Conference.AFC 5)
  nfc0h : S.nfc.wildCard0.homeTeam = some (mkTeam Conference.NFC 2)
  nfc0a : S.nfc.wildCard0.awayTeam = some (mkTeam Conference.NFC 7)
  nfc1h : S.nfc.wildCard1.homeTeam = some (mkTeam Conference.NFC 3)
  nfc1a : S.nfc.wildCard1.awayTeam = some (mkTeam Conference.NFC 6)
  nfc2h : S.nfc.wildCard2.homeTeam = some (mkTeam Conference.NFC 4)
  nfc2a : S.nfc.wildCard2.awayTeam = some (mkTeam Conference.NFC 5)
  afcD0h : S.afc.divisional0.homeTeam = (calculateDivisionalMatchups Conference.AFC
    [S.afc.wildCard0.winner, S.afc.wildCard1.winner, S.afc.wildCard2.winner]).matchup1.home
  afcD0a : S.afc.divisional0.awayTeam = (calculateDivisionalMatchups Conference.AFC
    [S.afc.wildCard0.winner, S.afc.wildCard1.winner, S.afc.wildCard2.winner]).matchup1.away
  afcD1h : S.afc.divisional1.homeTeam = (calculateDivisionalMatchups Conference.AFC
    [S.afc.wildCard0.winner, S.afc.wildCard1.winner, S.afc.wildCard2.winner]).matchup2.home
  afcD1a : S.afc.divisional1.awayTeam = (calculateDivisionalMatchups Conference.AFC
    [S.afc.wildCard0.winner, S.afc.wildCard1.winner, S.afc.wildCard2.winner]).matchup2.away
  nfcD0h : S.nfc.divisional0.homeTeam = (calculateDivisionalMatchups Conference.NFC
    [S.nfc.wildCard0.winner, S.nfc.wildCard1.winner, S.nfc.wildCard2.winner]).matchup1.home
  nfcD0a : S.nfc.divisional0.awayTeam = (calculateDivisionalMatchups Conference.NFC
    [S.nfc.wildCard0.winner, S.nfc.wildCard1.winner, S.nfc.wildCard2.winner]).matchup1.away
  nfcD1h : S.nfc.divisional1.homeTeam = (calculateDivisionalMatchups Conference.NFC
    [S.nfc.wildCard0.winner, S.nfc.wildCard1.winner, S.nfc.wildCard2.winner]).matchup2.home
  nfcD1a : S.nfc.divisional1.awayTeam = (calculateDivisionalMatchups Conference.NFC
    [S.nfc.wildCard0.winner, S.nfc.wildCard1.winner, S.nfc.wildCard2.winner]).matchup2.away
  afcCh : S.afc.championship.homeTeam = (calculateChampionshipMatchup
    [S.afc.divisional0.winner, S.afc.divisional1.winner]).home
  afcCa : S.afc.championship.awayTeam = (calculateChampionshipMatchup
    [S.afc.divisional0.winner, S.afc.divisional1.winner]).away
  nfcCh : S.nfc.championship.homeTeam = (calculateChampionshipMatchup
    [S.nfc.divisional0.winner, S.nfc.divisional1.winner]).home
  nfcCa : S.nfc.championship.awayTeam = (calculateChampionshipMatchup
    [S.nfc.divisional0.winner, S.nfc.divisional1.winner]).away
  sbH : S.superBowl.homeTeam = S.afc.championship.winner
  sbA : S.superBowl.awayTeam = S.nfc.championship.winner
  vAfc0 : ValidMatchupWinner S.afc.wildCard0
  vAfc1 : ValidMatchupWinner S.afc.wildCard1
  vAfc2 : ValidMatchupWinner S.afc.wildCard2
  vNfc0 : ValidMatchupWinner S.nfc.wildCard0
  vNfc1 : ValidMatchupWinner S.nfc.wildCard1
  vNfc2 : ValidMatchupWinner S.nfc.wildCard2
  vAfcD0 : ValidMatchupWinner S.afc.divisional0
  vAfcD1 : ValidMatchupWinner S.afc.divisional1
  vNfcD0 : ValidMatchupWinner S.nfc.divisional0
  vNfcD1 : ValidMatchupWinner S.nfc.divisional1
  vAfcC : ValidMatchupWinner S.afc.championship
  vNfcC : ValidMatchupWinner S.nfc.championship
  vSB : ValidMatchupWinner S.superBowl


theorem lor_shiftLeft_eq_add {a : Nat} (c k : Nat) (h : a < 2 ^ k) :
    a ||| c <<< k = 2 ^ k * c + a := by
  rw [Nat.shiftLeft_eq, Nat.or_comm, Nat.mul_comm c]
  exact (Nat.mul_add_lt_is_or h c).symm

theorem and_three_eq_mod (x : Nat) : x &&& 3 = x % 4 := by
  have h := Nat.and_pow_two_sub_one_eq_mod x 2
  norm_num at h
  exact h

theorem and_255_eq_mod (x : Nat) : x &&& 255 = x % 256 := by
  have h := Nat.and_pow_two_sub_one_eq_mod x 8
  norm_num at h
  exact h

theorem b64Alphabet_length : b64Alphabet.length = 64 := by decide

theorem b64Char_ge (n : Nat) (h : 64 ≤ n) : b64Char n = 'A' := by
  unfold b64Char
  rw [List.getD_eq_default]
  rw [b64Alphabet_length]
  omega

theorem range64_all {p : Nat → Bool} (h : (List.range 64).all p = true) :
    ∀ n, n < 64 → p n = true :=
  fun n hn => List.all_eq_true.mp h n (List.mem_range.mpr hn)

theorem restore_subst_b64Char {n : Nat} (h : n < 64) :
    base64UrlRestore (base64UrlSubst (b64Char n)) = b64Char n := by
  have hall : (List.range 64).all
      (fun m => base64UrlRestore (base64UrlSubst (b64Char m)) == b64Char m) = true := by
    decide
  exact eq_of_beq (range64_all hall n h)

theorem b64Index_b64Char {n : Nat} (h : n < 64) : b64Index (b64Char n) = some n := by
  have hall : (List.range 64).all (fun m => b64Index (b64Char m) == some m) = true := by
    decide
  exact eq_of_beq (range64_all hall n h)

theorem subst_b64Char_ne_eq (n : Nat) : base64UrlSubst (b64Char n) ≠ '=' := by
  by_cases h : n < 64
  · have hall : (List.range 64).all (fun m => base64UrlSubst (b64Char m) != '=') = true := by
      decide
    exact ne_of_beq_false (Bool.of_not_eq_true (by simpa using range64_all hall n h))
  · rw [b64Char_ge n (by omega)]
    decide

theorem ws_b64Char (n : Nat) : isB64Whitespace (b64Char n) = false := by
  by_cases h : n < 64
  · have hall : (List.range 64).all (fun m => !isB64Whitespace (b64Char m)) = true := by
      decide
    simpa using range64_all hall n h
  · rw [b64Char_ge n (by omega)]
    decide

theorem strip_six (t0 t1 t2 t3 t4 t5 : Char) (h5 : t5 ≠ '=') :
    stripTrailingEq [t0, t1, t2, t3, t4, t5, '=', '='] = [t0, t1, t2, t3, t4, t5] := by
  simp [stripTrailingEq, List.dropWhile, h5]

theorem stripPad_six (t0 t1 t2 t3 t4 t5 : Char) :
    stripPad [t0, t1, t2, t3, t4, t5, '=', '='] = [t0, t1, t2, t3, t4, t5] := by
  simp [stripPad]

theorem atob_six (e0 e1 e2 e3 e4 e5 : Nat) (h0 : e0 < 64) (h1 : e1 < 64) (h2 : e2 < 64)
    (h3 : e3 < 64) (h4 : e4 < 64) (h5 : e5 < 64) :
    atob [b64Char e0, b64Char e1, b64Char e2, b64Char e3, b64Char e4, b64Char e5, '=', '='] =
    some (sextetsToBytes [e0, e1, e2, e3, e4, e5]) := by
  have hfil : List.filter (fun c => !isB64Whitespace c)
      [b64Char e0, b64Char e1, b64Char e2, b64Char e3, b64Char e4, b64Char e5, '=', '='] =
      [b64Char e0, b64Char e1, b64Char e2, b64Char e3, b64Char e4, b64Char e5, '=', '='] := by
    simp [List.filter_cons, ws_b64Char]
    decide
  have hmapM : List.mapM b64Index
      [b64Char e0, b64Char e1, b64Char e2, b64Char e3, b64Char e4, b64Char e5] =
      some [e0, e1, e2, e3, e4, e5] := by
    simp only [List.mapM_cons, List.mapM_nil, b64Index_b64Char h0, b64Index_b64Char h1,
      b64Index_b64Char h2, b64Index_b64Char h3, b64Index_b64Char h4, b64Index_b64Char h5]
    rfl
  have hmapM2 : List.mapM.loop b64Index
      [b64Char e0, b64Char e1, b64Char e2, b64Char e3, b64Char e4, b64Char e5] [] =
      some [e0, e1, e2, e3, e4, e5] := hmapM
  simp only [atob]
  rw [hfil]
  norm_num
  rw [stripPad_six]
  norm_num
  rw [hmapM2]

theorem decode_of_bytes (b0 b1 b2 b3 : Nat)
    (h0 : b0 < 256) (h1 : b1 < 256) (h2 : b2 < 256) (h3 : b3 < 256) :
    decodeBracketPicks (String.mk (stripTrailingEq
      ((btoaBytes [b0, b1, b2, b3]).map base64UrlSubst)))
    = some ((List.range 13).map (fun i =>
        (b0 + 256 * b1 + 65536 * b2 + 16777216 * b3) >>> (i * 2) &&& 3)) := by
  have he0 : b0 / 4 < 64 := by omega
  have he1 : b0 % 4 * 16 + b1 / 16 < 64 := by omega
  have he2 : b1 % 16 * 4 + b2 / 64 < 64 := by omega
  have he3 : b2 % 64 < 64 := by omega
  have he4 : b3 / 4 < 64 := by omega
  have he5 : b3 % 4 * 16 < 64 := by omega
  have hbtoa : btoaBytes [b0, b1, b2, b3] =
      [b64Char (b0 / 4), b64Char (b0 % 4 * 16 + b1 / 16), b64Char (b1 % 16 * 4 + b2 / 64),
       b64Char (b2 % 64), b64Char (b3 / 4), b64Char (b3 % 4 * 16), '=', '='] := rfl
  rw [hbtoa]
  rw [show ([b64Char (b0 / 4), b64Char (b0 % 4 * 16 + b1 / 16), b64Char (b1 % 16 * 4 + b2 / 64),
       b64Char (b2 % 64), b64Char (b3 / 4), b64Char (b3 % 4 * 16), '=', '=']).map base64UrlSubst =
      [base64UrlSubst (b64Char (b0 / 4)), base64UrlSubst (b64Char (b0 % 4 * 16 + b1 / 16)),
       base64UrlSubst (b64Char (b1 % 16 * 4 + b2 / 64)), base64UrlSubst (b64Char (b2 % 64)),
       base64UrlSubst (b64Char (b3 / 4)), base64UrlSubst (b64Char (b3 % 4 * 16)), '=', '='] from rfl]
  rw [strip_six _ _ _ _ _ _ (subst_b64Char_ne_eq _)]
  simp only [decodeBracketPicks]
  rw [show (String.mk [base64UrlSubst (b64Char (b0 / 4)), base64UrlSubst (b64Char (b0 % 4 * 16 + b1 / 16)),
       base64UrlSubst (b64Char (b1 % 16 * 4 + b2 / 64)), base64UrlSubst (b64Char (b2 % 64)),
       base64UrlSubst (b64Char (b3 / 4)), base64UrlSubst (b64Char (b3 % 4 * 16))]).toList.map base64UrlRestore =
      [b64Char (b0 / 4), b64Char (b0 % 4 * 16 + b1 / 16), b64Char (b1 % 16 * 4 + b2 / 64),
       b64Char (b2 % 64), b64Char (b3 / 4), b64Char (b3 % 4 * 16)] by
    simp only [String.toList]
    rw [List.map_cons, List.map_cons, List.map_cons, List.map_cons, List.map_cons, List.map_cons,
      restore_subst_b64Char he0, restore_subst_b64Char he1, restore_subst_b64Char he2,
      restore_subst_b64Char he3, restore_subst_b64Char he4, restore_subst_b64Char he5]
    rfl]
  have hpad : padBase64 [b64Char (b0 / 4), b64Char (b0 % 4 * 16 + b1 / 16),
      b64Char (b1 % 16 * 4 + b2 / 64), b64Char (b2 % 64), b64Char (b3 / 4),
      b64Char (b3 % 4 * 16)] =
      [b64Char (b0 / 4), b64Char (b0 % 4 * 16 + b1 / 16), b64Char (b1 % 16 * 4 + b2 / 64),
       b64Char (b2 % 64), b64Char (b3 / 4), b64Char (b3 % 4 * 16), '=', '='] := by
    norm_num [padBase64]
    rfl
  rw [hpad]
  rw [atob_six _ _ _ _ _ _ he0 he1 he2 he3 he4 he5]
  have hbytes : sextetsToBytes [b0 / 4, b0 % 4 * 16 + b1 / 16, b1 % 16 * 4 + b2 / 64,
      b2 % 64, b3 / 4, b3 % 4 * 16] = [b0, b1, b2, b3] := by
    show [(b0 / 4) * 4 + (b0 % 4 * 16 + b1 / 16) / 16,
      (b0 % 4 * 16 + b1 / 16) % 16 * 16 + (b1 % 16 * 4 + b2 / 64) / 4,
      (b1 % 16 * 4 + b2 / 64) % 4 * 64 + (b2 % 64),
      (b3 / 4) * 4 + (b3 % 4 * 16) / 16] = [b0, b1, b2, b3]
    have : (b0 / 4) * 4 + (b0 % 4 * 16 + b1 / 16) / 16 = b0 := by omega
    rw [this]
    have : (b0 % 4 * 16 + b1 / 16) % 16 * 16 + (b1 % 16 * 4 + b2 / 64) / 4 = b1 := by omega
    rw [this]
    have : (b1 % 16 * 4 + b2 / 64) % 4 * 64 + (b2 % 64) = b2 := by omega
    rw [this]
    have : (b3 / 4) * 4 + (b3 % 4 * 16) / 16 = b3 := by omega
    rw [this]
  rw [hbytes]
  have hpacked : ([b0, b1, b2, b3].getD 0 0 ||| [b0, b1, b2, b3].getD 1 0 <<< 8 |||
      [b0, b1, b2, b3].getD 2 0 <<< 16 ||| [b0, b1, b2, b3].getD 3 0 <<< 24) =
      b0 + 256 * b1 + 65536 * b2 + 16777216 * b3 := by
    show (b0 ||| b1 <<< 8 ||| b2 <<< 16 ||| b3 <<< 24) = _
    rw [lor_shiftLeft_eq_add b1 8 (by omega)]
    rw [lor_shiftLeft_eq_add b2 16 (by norm_num; omega)]
    rw [lor_shiftLeft_eq_add b3 24 (by norm_num; omega)]
    norm_num
    omega
  show some ((List.range 13).map (fun i =>
      ([b0, b1, b2, b3].getD 0 0 ||| [b0, b1, b2, b3].getD 1 0 <<< 8 |||
       [b0, b1, b2, b3].getD 2 0 <<< 16 ||| [b0, b1, b2, b3].getD 3 0 <<< 24) >>> (i * 2) &&& 3))
    = some ((List.range 13).map (fun i =>
      (b0 + 256 * b1 + 65536 * b2 + 16777216 * b3) >>> (i * 2) &&& 3))
  rw [hpacked]

theorem getWinnerCode_lt_four (m : Matchup) : getWinnerCode m < 4 := by
  unfold getWinnerCode
  split
  · omega
  · split
    · omega
    · split <;> omega

theorem packCodes_13 (c0 c1 c2 c3 c4 c5 c6 c7 c8 c9 c10 c11 c12 : Nat)
    (h0 : c0 < 4) (h1 : c1 < 4) (h2 : c2 < 4) (h3 : c3 < 4) (h4 : c4 < 4)
    (h5 : c5 < 4) (h6 : c6 < 4) (h7 : c7 < 4) (h8 : c8 < 4) (h9 : c9 < 4)
    (h10 : c10 < 4) (h11 : c11 < 4) (h12 : c12 < 4) :
    packCodes [c0, c1, c2, c3, c4, c5, c6, c7, c8, c9, c10, c11, c12] =
      c0 + 4 * c1 + 16 * c2 + 64 * c3 + 256 * c4 + 1024 * c5 + 4096 * c6 +
      16384 * c7 + 65536 * c8 + 262144 * c9 + 1048576 * c10 + 4194304 * c11 +
      16777216 * c12 := by
  show ((((((((((((0 ||| c0 <<< (0 * 2)) ||| c1 <<< (1 * 2)) ||| c2 <<< (2 * 2)) |||
    c3 <<< (3 * 2)) ||| c4 <<< (4 * 2)) ||| c5 <<< (5 * 2)) ||| c6 <<< (6 * 2)) |||
    c7 <<< (7 * 2)) ||| c8 <<< (8 * 2)) ||| c9 <<< (9 * 2)) ||| c10 <<< (10 * 2)) |||
    c11 <<< (11 * 2)) ||| c12 <<< (12 * 2) = _
  rw [lor_shiftLeft_eq_add c0 (0 * 2) (by norm_num)]
  rw [lor_shiftLeft_eq_add c1 (1 * 2) (by norm_num; omega)]
  rw [lor_shiftLeft_eq_add c2 (2 * 2) (by norm_num; omega)]
  rw [lor_shiftLeft_eq_add c3 (3 * 2) (by norm_num; omega)]
  rw [lor_shiftLeft_eq_add c4 (4 * 2) (by norm_num; omega)]
  rw [lor_shiftLeft_eq_add c5 (5 * 2) (by norm_num; omega)]
  rw [lor_shiftLeft_eq_add c6 (6 * 2) (by norm_num; omega)]
  rw [lor_shiftLeft_eq_add c7 (7 * 2) (by norm_num; omega)]
  rw [lor_shiftLeft_eq_add c8 (8 * 2) (by norm_num; omega)]
  rw [lor_shiftLeft_eq_add c9 (9 * 2) (by norm_num; omega)]
  rw [lor_shiftLeft_eq_add c10 (10 * 2) (by norm_num; omega)]
  rw [lor_shiftLeft_eq_add c11 (11 * 2) (by norm_num; omega)]
  rw [lor_shiftLeft_eq_add c12 (12 * 2) (by norm_num; omega)]
  norm_num
  omega

theorem shiftRight_double_and_three (x i : Nat) : x >>> (i * 2) &&& 3 = x / 4 ^ i % 4 := by
  rw [Nat.shiftRight_eq_div_pow, and_three_eq_mod]
  have h4 : (2 : Nat) ^ (i * 2) = 4 ^ i := by
    rw [Nat.mul_comm, Nat.pow_mul]
  rw [h4]

theorem digits13 (c0 c1 c2 c3 c4 c5 c6 c7 c8 c9 c10 c11 c12 : Nat)
    (h0 : c0 < 4) (h1 : c1 < 4) (h2 : c2 < 4) (h3 : c3 < 4) (h4 : c4 < 4)
    (h5 : c5 < 4) (h6 : c6 < 4) (h7 : c7 < 4) (h8 : c8 < 4) (h9 : c9 < 4)
    (h10 : c10 < 4) (h11 : c11 < 4) (h12 : c12 < 4) :
    (List.range 13).map (fun i =>
      (c0 + 4 * c1 + 16 * c2 + 64 * c3 + 256 * c4 + 1024 * c5 + 4096 * c6 +
       16384 * c7 + 65536 * c8 + 262144 * c9 + 1048576 * c10 + 4194304 * c11 +
       16777216 * c12) >>> (i * 2) &&& 3) =
    [c0, c1, c2, c3, c4, c5, c6, c7, c8, c9, c10, c11, c12] := by
  simp only [shiftRight_double_and_three]
  norm_num [List.range_succ]
  refine ⟨by omega, by omega, by omega, by omega, by omega, by omega, by omega,
    by omega, by omega, by omega, by omega, by omega, by omega⟩

theorem decode_encode_codes (c0 c1 c2 c3 c4 c5 c6 c7 c8 c9 c10 c11 c12 : Nat)
    (h0 : c0 < 4) (h1 : c1 < 4) (h2 : c2 < 4) (h3 : c3 < 4) (h4 : c4 < 4)
    (h5 : c5 < 4) (h6 : c6 < 4) (h7 : c7 < 4) (h8 : c8 < 4) (h9 : c9 < 4)
    (h10 : c10 < 4) (h11 : c11 < 4) (h12 : c12 < 4) :
    decodeBracketPicks (String.mk (stripTrailingEq ((btoaBytes
      [ packCodes [c0, c1, c2, c3, c4, c5, c6, c7, c8, c9, c10, c11, c12] >>> 0 &&& 255
      , packCodes [c0, c1, c2, c3, c4, c5, c6, c7, c8, c9, c10, c11, c12] >>> 8 &&& 255
      , packCodes [c0, c1, c2, c3, c4, c5, c6, c7, c8, c9, c10, c11, c12] >>> 16 &&& 255
      , packCodes [c0, c1, c2, c3, c4, c5, c6, c7, c8, c9, c10, c11, c12] >>> 24 &&& 255 ]).map base64UrlSubst)))
    = some [c0, c1, c2, c3, c4, c5, c6, c7, c8, c9, c10, c11, c12] := by
  rw [packCodes_13 c0 c1 c2 c3 c4 c5 c6 c7 c8 c9 c10 c11 c12
    h0 h1 h2 h3 h4 h5 h6 h7 h8 h9 h10 h11 h12]
  set S := c0 + 4 * c1 + 16 * c2 + 64 * c3 + 256 * c4 + 1024 * c5 + 4096 * c6 +
    16384 * c7 + 65536 * c8 + 262144 * c9 + 1048576 * c10 + 4194304 * c11 +
    16777216 * c12 with hS
  have hb0 : S >>> 0 &&& 255 < 256 := by rw [and_255_eq_mod]; omega
  have hb1 : S >>> 8 &&& 255 < 256 := by rw [and_255_eq_mod]; omega
  have hb2 : S >>> 16 &&& 255 < 256 := by rw [and_255_eq_mod]; omega
  have hb3 : S >>> 24 &&& 255 < 256 := by rw [and_255_eq_mod]; omega
  rw [decode_of_bytes _ _ _ _ hb0 hb1 hb2 hb3]
  have hrecon : (S >>> 0 &&& 255) + 256 * (S >>> 8 &&& 255) + 65536 * (S >>> 16 &&& 255) +
      16777216 * (S >>> 24 &&& 255) = S := by
    rw [Nat.shiftRight_eq_div_pow, Nat.shiftRight_eq_div_pow, Nat.shiftRight_eq_div_pow,
      Nat.shiftRight_eq_div_pow, and_255_eq_mod, and_255_eq_mod, and_255_eq_mod, and_255_eq_mod]
    norm_num
    omega
  rw [hrecon]
  exact congrArg some (by
    rw [hS]
    exact digits13 c0 c1 c2 c3 c4 c5 c6 c7 c8 c9 c10 c11 c12
      h0 h1 h2 h3 h4 h5 h6 h7 h8 h9 h10 h11 h12)

theorem decode_encode (b : BracketState) :
    decodeBracketPicks (encodeBracketPicks b) = some (bracketCodes b) :=
  decode_encode_codes
    (getWinnerCode b.afc.wildCard0) (getWinnerCode b.afc.wildCard1)
    (getWinnerCode b.afc.wildCard2) (getWinnerCode b.nfc.wildCard0)
    (getWinnerCode b.nfc.wildCard1) (getWinnerCode b.nfc.wildCard2)
    (getWinnerCode b.afc.divisional0) (getWinnerCode b.afc.divisional1)
    (getWinnerCode b.nfc.divisional0) (getWinnerCode b.nfc.divisional1)
    (getWinnerCode b.afc.championship) (getWinnerCode b.nfc.championship)
    (getWinnerCode b.superBowl)
    (getWinnerCode_lt_four _) (getWinnerCode_lt_four _) (getWinnerCode_lt_four _)
    (getWinnerCode_lt_four _) (getWinnerCode_lt_four _) (getWinnerCode_lt_four _)
    (getWinnerCode_lt_four _) (getWinnerCode_lt_four _) (getWinnerCode_lt_four _)
    (getWinnerCode_lt_four _) (getWinnerCode_lt_four _) (getWinnerCode_lt_four _)
    (getWinnerCode_lt_four _)

theorem getWinnerCode_eta (m : Matchup) (idT : String) (h a : Option SeededTeam)
    (hh : m.homeTeam = h) (ha : m.awayTeam = a) :
    getWinnerCode ⟨idT, h, a, m.winner⟩ = getWinnerCode m := by
  subst hh
  subst ha
  rfl

theorem applyCode_fresh (idT : String) (mS : Matchup) (home away : Option SeededTeam)
    (hh : mS.homeTeam = home) (ha : mS.awayTeam = away) (hv : ValidMatchupWinner mS) :
    applyCode ⟨idT, home, away, none⟩ (getWinnerCode mS) = ⟨idT, home, away, mS.winner⟩ := by
  subst hh
  subst ha
  cases hw : mS.winner with
  | none =>
    have hcode : getWinnerCode mS = 0 := by simp [getWinnerCode, hw]
    rw [hcode]
    rfl
  | some w =>
    obtain ⟨h, a, hh2, ha2, hcase, hne⟩ := hv w hw
    cases hcase with
    | inl hwh =>
      have hcode : getWinnerCode mS = 1 := by
        simp [getWinnerCode, hw, hh2, hwh]
      rw [hcode]
      simp [applyCode, hw, hh2, hwh]
    | inr hwa =>
      have hcode : getWinnerCode mS = 2 := by
        simp [getWinnerCode, hw, hh2, ha2, hwa, hne]
      rw [hcode]
      simp [applyCode, hw, ha2, hwa]

theorem apply_codes_of_valid (S : BracketState) (hS : ValidBracket S) :
    bracketCodes (applyPicksToFreshBracket (bracketCodes S) S.userName) = bracketCodes S := by
  have hk0 : (applyPicksToFreshBracket (bracketCodes S) S.userName).afc.wildCard0 = ⟨"afc-wc-1", some (mkTeam Conference.AFC 2), some (mkTeam Conference.AFC 7), S.afc.wildCard0.winner⟩ := by
    show applyCode ⟨"afc-wc-1", some (mkTeam Conference.AFC 2), some (mkTeam Conference.AFC 7), none⟩ (getWinnerCode S.afc.wildCard0) = _
    exact applyCode_fresh _ _ _ _ hS.afc0h hS.afc0a hS.vAfc0
  have hk1 : (applyPicksToFreshBracket (bracketCodes S) S.userName).afc.wildCard1 = ⟨"afc-wc-2", some (mkTeam Conference.AFC 3), some (mkTeam Conference.AFC 6), S.afc.wildCard1.winner⟩ := by
    show applyCode ⟨"afc-wc-2", some (mkTeam Conference.AFC 3), some (mkTeam Conference.AFC 6), none⟩ (getWinnerCode S.afc.wildCard1) = _
    exact applyCode_fresh _ _ _ _ hS.afc1h hS.afc1a hS.vAfc1
  have hk2 : (applyPicksToFreshBracket (bracketCodes S) S.userName).afc.wildCard2 = ⟨"afc-wc-3", some (mkTeam Conference.AFC 4), some (mkTeam Conference.AFC 5), S.afc.wildCard2.winner⟩ := by
    show applyCode ⟨"afc-wc-3", some (mkTeam Conference.AFC 4), some (mkTeam Conference.AFC 5), none⟩ (getWinnerCode S.afc.wildCard2) = _
    exact applyCode_fresh _ _ _ _ hS.afc2h hS.afc2a hS.vAfc2
  have hk3 : (applyPicksToFreshBracket (bracketCodes S) S.userName).nfc.wildCard0 = ⟨"nfc-wc-1", some (mkTeam Conference.NFC 2), some (mkTeam Conference.NFC 7), S.nfc.wildCard0.winner⟩ := by
    show applyCode ⟨"nfc-wc-1", some (mkTeam Conference.NFC 2), some (mkTeam Conference.NFC 7), none⟩ (getWinnerCode S.nfc.wildCard0) = _
    exact applyCode_fresh _ _ _ _ hS.nfc0h hS.nfc0a hS.vNfc0
  have hk4 : (applyPicksToFreshBracket (bracketCodes S) S.userName).nfc.wildCard1 = ⟨"nfc-wc-2", some (mkTeam Conference.NFC 3), some (mkTeam Conference.NFC 6), S.nfc.wildCard1.winner⟩ := by
    show applyCode ⟨"nfc-wc-2", some (mkTeam Conference.NFC 3), some (mkTeam Conference.NFC 6), none⟩ (getWinnerCode S.nfc.wildCard1) = _
    exact applyCode_fresh _ _ _ _ hS.nfc1h hS.nfc1a hS.vNfc1
  have hk5 : (applyPicksToFreshBracket (bracketCodes S) S.userName).nfc.wildCard2 = ⟨"nfc-wc-3", some (mkTeam Conference.NFC 4), some (mkTeam Conference.NFC 5), S.nfc.wildCard2.winner⟩ := by
    show applyCode ⟨"nfc-wc-3", some (mkTeam Conference.NFC 4), some (mkTeam Conference.NFC 5), none⟩ (getWinnerCode S.nfc.wildCard2) = _
    exact applyCode_fresh _ _ _ _ hS.nfc2h hS.nfc2a hS.vNfc2
  have hk6 : (applyPicksToFreshBracket (bracketCodes S) S.userName).afc.divisional0 = ⟨"afc-div-1", (calculateDivisionalMatchups Conference.AFC [S.afc.wildCard0.winner, S.afc.wildCard1.winner, S.afc.wildCard2.winner]).matchup1.home, (calculateDivisionalMatchups Conference.AFC [S.afc.wildCard0.winner, S.afc.wildCard1.winner, S.afc.wildCard2.winner]).matchup1.away, S.afc.divisional0.winner⟩ := by
    show applyCode ⟨"afc-div-1", (calculateDivisionalMatchups Conference.AFC [(applyPicksToFreshBracket (bracketCodes S) S.userName).afc.wildCard0.winner, (applyPicksToFreshBracket (bracketCodes S) S.userName).afc.wildCard1.winner, (applyPicksToFreshBracket (bracketCodes S) S.userName).afc.wildCard2.winner]).matchup1.home, (calculateDivisionalMatchups Conference.AFC [(applyPicksToFreshBracket (bracketCodes S) S.userName).afc.wildCard0.winner, (applyPicksToFreshBracket (bracketCodes S) S.userName).afc.wildCard1.winner, (applyPicksToFreshBracket (bracketCodes S) S.userName).afc.wildCard2.winner]).matchup1.away, none⟩ (getWinnerCode S.afc.divisional0) = _
    rw [hk0, hk1, hk2]
    show applyCode ⟨"afc-div-1", (calculateDivisionalMatchups Conference.AFC [S.afc.wildCard0.winner, S.afc.wildCard1.winner, S.afc.wildCard2.winner]).matchup1.home, (calculateDivisionalMatchups Conference.AFC [S.afc.wildCard0.winner, S.afc.wildCard1.winner, S.afc.wildCard2.winner]).matchup1.away, none⟩ (getWinnerCode S.afc.divisional0) = _
    exact applyCode_fresh _ _ _ _ hS.afcD0h hS.afcD0a hS.vAfcD0
  have hk7 : (applyPicksToFreshBracket (bracketCodes S) S.userName).afc.divisional1 = ⟨"afc-div-2", (calculateDivisionalMatchups Conference.AFC [S.afc.wildCard0.winner, S.afc.wildCard1.winner, S.afc.wildCard2.winner]).matchup2.home, (calculateDivisionalMatchups Conference.AFC [S.afc.wildCard0.winner, S.afc.wildCard1.winner, S.afc.wildCard2.winner]).matchup2.away, S.afc.divisional1.winner⟩ := by
    show applyCode ⟨"afc-div-2", (calculateDivisionalMatchups Conference.AFC [(applyPicksToFreshBracket (bracketCodes S) S.userName).afc.wildCard0.winner, (applyPicksToFreshBracket (bracketCodes S) S.userName).afc.wildCard1.winner, (applyPicksToFreshBracket (bracketCodes S) S.userName).afc.wildCard2.winner]).matchup2.home, (calculateDivisionalMatchups Conference.AFC [(applyPicksToFreshBracket (bracketCodes S) S.userName).afc.wildCard0.winner, (applyPicksToFreshBracket (bracketCodes S) S.userName).afc.wildCard1.winner, (applyPicksToFreshBracket (bracketCodes S) S.userName).afc.wildCard2.winner]).matchup2.away, none⟩ (getWinnerCode S.afc.divisional1) = _
    rw [hk0, hk1, hk2]
    show applyCode ⟨"afc-div-2", (calculateDivisionalMatchups Conference.AFC [S.afc.wildCard0.winner, S.afc.wildCard1.winner, S.afc.wildCard2.winner]).matchup2.home, (calculateDivisionalMatchups Conference.AFC [S.afc.wildCard0.winner, S.afc.wildCard1.winner, S.afc.wildCard2.winner]).matchup2.away, none⟩ (getWinnerCode S.afc.divisional1) = _
    exact applyCode_fresh _ _ _ _ hS.afcD1h hS.afcD1a hS.vAfcD1
  have hk8 : (applyPicksToFreshBracket (bracketCodes S) S.userName).nfc.divisional0 = ⟨"nfc-div-1", (calculateDivisionalMatchups Conference.NFC [S.nfc.wildCard0.winner, S.nfc.wildCard1.winner, S.nfc.wildCard2.winner]).matchup1.home, (calculateDivisionalMatchups Conference.NFC [S.nfc.wildCard0.winner, S.nfc.wildCard1.winner, S.nfc.wildCard2.winner]).matchup1.away, S.nfc.divisional0.winner⟩ := by
    show applyCode ⟨"nfc-div-1", (calculateDivisionalMatchups Conference.NFC [(applyPicksToFreshBracket (bracketCodes S) S.userName).nfc.wildCard0.winner, (applyPicksToFreshBracket (bracketCodes S) S.userName).nfc.wildCard1.winner, (applyPicksToFreshBracket (bracketCodes S) S.userName).nfc.wildCard2.winner]).matchup1.home, (calculateDivisionalMatchups Conference.NFC [(applyPicksToFreshBracket (bracketCodes S) S.userName).nfc.wildCard0.winner, (applyPicksToFreshBracket (bracketCodes S) S.userName).nfc.wildCard1.winner, (applyPicksToFreshBracket (bracketCodes S) S.userName).nfc.wildCard2.winner]).matchup1.away, none⟩ (getWinnerCode S.nfc.divisional0) = _
    rw [hk3, hk4, hk5]
    show applyCode ⟨"nfc-div-1", (calculateDivisionalMatchups Conference.NFC [S.nfc.wildCard0.winner, S.nfc.wildCard1.winner, S.nfc.wildCard2.winner]).matchup1.home, (calculateDivisionalMatchups Conference.NFC [S.nfc.wildCard0.winner, S.nfc.wildCard1.winner, S.nfc.wildCard2.winner]).matchup1.away, none⟩ (getWinnerCode S.nfc.divisional0) = _
    exact applyCode_fresh _ _ _ _ hS.nfcD0h hS.nfcD0a hS.vNfcD0
  have hk9 : (applyPicksToFreshBracket (bracketCodes S) S.userName).nfc.divisional1 = ⟨"nfc-div-2", (calculateDivisionalMatchups Conference.NFC [S.nfc.wildCard0.winner, S.nfc.wildCard1.winner, S.nfc.wildCard2.winner]).matchup2.home, (calculateDivisionalMatchups Conference.NFC [S.nfc.wildCard0.winner, S.nfc.wildCard1.winner, S.nfc.wildCard2.winner]).matchup2.away, S.nfc.divisional1.winner⟩ := by
    show applyCode ⟨"nfc-div-2", (calculateDivisionalMatchups Conference.NFC [(applyPicksToFreshBracket (bracketCodes S) S.userName).nfc.wildCard0.winner, (applyPicksToFreshBracket (bracketCodes S) S.userName).nfc.wildCard1.winner, (applyPicksToFreshBracket (bracketCodes S) S.userName).nfc.wildCard2.winner]).matchup2.home, (calculateDivisionalMatchups Conference.NFC [(applyPicksToFreshBracket (bracketCodes S) S.userName).nfc.wildCard0.winner, (applyPicksToFreshBracket (bracketCodes S) S.userName).nfc.wildCard1.winner, (applyPicksToFreshBracket (bracketCodes S) S.userName).nfc.wildCard2.winner]).matchup2.away, none⟩ (getWinnerCode S.nfc.divisional1) = _
    rw [hk3, hk4, hk5]
    show applyCode ⟨"nfc-div-2", (calculateDivisionalMatchups Conference.NFC [S.nfc.wildCard0.winner, S.nfc.wildCard1.winner, S.nfc.wildCard2.winner]).matchup2.home, (calculateDivisionalMatchups Conference.NFC [S.nfc.wildCard0.winner, S.nfc.wildCard1.winner, S.nfc.wildCard2.winner]).matchup2.away, none⟩ (getWinnerCode S.nfc.divisional1) = _
    exact applyCode_fresh _ _ _ _ hS.nfcD1h hS.nfcD1a hS.vNfcD1
  have hk10 : (applyPicksToFreshBracket (bracketCodes S) S.userName).afc.championship = ⟨"afc-champ", (calculateChampionshipMatchup [S.afc.divisional0.winner, S.afc.divisional1.winner]).home, (calculateChampionshipMatchup [S.afc.divisional0.winner, S.afc.divisional1.winner]).away, S.afc.championship.winner⟩ := by
    show applyCode ⟨"afc-champ", (calculateChampionshipMatchup [(applyPicksToFreshBracket (bracketCodes S) S.userName).afc.divisional0.winner, (applyPicksToFreshBracket (bracketCodes S) S.userName).afc.divisional1.winner]).home, (calculateChampionshipMatchup [(applyPicksToFreshBracket (bracketCodes S) S.userName).afc.divisional0.winner, (applyPicksToFreshBracket (bracketCodes S) S.userName).afc.divisional1.winner]).away, none⟩ (getWinnerCode S.afc.championship) = _
    rw [hk6, hk7]
    show applyCode ⟨"afc-champ", (calculateChampionshipMatchup [S.afc.divisional0.winner, S.afc.divisional1.winner]).home, (calculateChampionshipMatchup [S.afc.divisional0.winner, S.afc.divisional1.winner]).away, none⟩ (getWinnerCode S.afc.championship) = _
    exact applyCode_fresh _ _ _ _ hS.afcCh hS.afcCa hS.vAfcC
  have hk11 : (applyPicksToFreshBracket (bracketCodes S) S.userName).nfc.championship = ⟨"nfc-champ", (calculateChampionshipMatchup [S.nfc.divisional0.winner, S.nfc.divisional1.winner]).home, (calculateChampionshipMatchup [S.nfc.divisional0.winner, S.nfc.divisional1.winner]).away, S.nfc.championship.winner⟩ := by
    show applyCode ⟨"nfc-champ", (calculateChampionshipMatchup [(applyPicksToFreshBracket (bracketCodes S) S.userName).nfc.divisional0.winner, (applyPicksToFreshBracket (bracketCodes S) S.userName).nfc.divisional1.winner]).home, (calculateChampionshipMatchup [(applyPicksToFreshBracket (bracketCodes S) S.userName).nfc.divisional0.winner, (applyPicksToFreshBracket (bracketCodes S) S.userName).nfc.divisional1.winner]).away, none⟩ (getWinnerCode S.nfc.championship) = _
    rw [hk8, hk9]
    show applyCode ⟨"nfc-champ", (calculateChampionshipMatchup [S.nfc.divisional0.winner, S.nfc.divisional1.winner]).home, (calculateChampionshipMatchup [S.nfc.divisional0.winner, S.nfc.divisional1.winner]).away, none⟩ (getWinnerCode S.nfc.championship) = _
    exact applyCode_fresh _ _ _ _ hS.nfcCh hS.nfcCa hS.vNfcC
  have hk12 : (applyPicksToFreshBracket (bracketCodes S) S.userName).superBowl = ⟨"super-bowl", S.afc.championship.winner, S.nfc.championship.winner, S.superBowl.winner⟩ := by
    show applyCode ⟨"super-bowl", (applyPicksToFreshBracket (bracketCodes S) S.userName).afc.championship.winner, (applyPicksToFreshBracket (bracketCodes S) S.userName).nfc.championship.winner, none⟩ (getWinnerCode S.superBowl) = _
    rw [hk10, hk11]
    show applyCode ⟨"super-bowl", S.afc.championship.winner, S.nfc.championship.winner, none⟩ (getWinnerCode S.superBowl) = _
    exact applyCode_fresh _ _ _ _ hS.sbH hS.sbA hS.vSB
  show [getWinnerCode (applyPicksToFreshBracket (bracketCodes S) S.userName).afc.wildCard0, getWinnerCode (applyPicksToFreshBracket (bracketCodes S) S.userName).afc.wildCard1, getWinnerCode (applyPicksToFreshBracket (bracketCodes S) S.userName).afc.wildCard2, getWinnerCode (applyPicksToFreshBracket (bracketCodes S) S.userName).nfc.wildCard0, getWinnerCode (applyPicksToFreshBracket (bracketCodes S) S.userName).nfc.wildCard1, getWinnerCode (applyPicksToFreshBracket (bracketCodes S) S.userName).nfc.wildCard2, getWinnerCode (applyPicksToFreshBracket (bracketCodes S) S.userName).afc.divisional0, getWinnerCode (applyPicksToFreshBracket (bracketCodes S) S.userName).afc.divisional1, getWinnerCode (applyPicksToFreshBracket (bracketCodes S) S.userName).nfc.divisional0, getWinnerCode (applyPicksToFreshBracket (bracketCodes S) S.userName).nfc.divisional1, getWinnerCode (applyPicksToFreshBracket (bracketCodes S) S.userName).afc.championship, getWinnerCode (applyPicksToFreshBracket (bracketCodes S) S.userName).nfc.championship, getWinnerCode (applyPicksToFreshBracket (bracketCodes S) S.userName).superBowl] = [getWinnerCode S.afc.wildCard0, getWinnerCode S.afc.wildCard1, getWinnerCode S.afc.wildCard2, getWinnerCode S.nfc.wildCard0, getWinnerCode S.nfc.wildCard1, getWinnerCode S.nfc.wildCard2, getWinnerCode S.afc.divisional0, getWinnerCode S.afc.divisional1, getWinnerCode S.nfc.divisional0, getWinnerCode S.nfc.divisional1, getWinnerCode S.afc.championship, getWinnerCode S.nfc.championship, getWinnerCode S.superBowl]
  rw [hk0, hk1, hk2, hk3, hk4, hk5, hk6, hk7, hk8, hk9, hk10, hk11, hk12]
  rw [getWinnerCode_eta S.afc.wildCard0 "afc-wc-1" _ _ hS.afc0h hS.afc0a]
  rw [getWinnerCode_eta S.afc.wildCard1 "afc-wc-2" _ _ hS.afc1h hS.afc1a]
  rw [getWinnerCode_eta S.afc.wildCard2 "afc-wc-3" _ _ hS.afc2h hS.afc2a]
  rw [getWinnerCode_eta S.nfc.wildCard0 "nfc-wc-1" _ _ hS.nfc0h hS.nfc0a]
  rw [getWinnerCode_eta S.nfc.wildCard1 "nfc-wc-2" _ _ hS.nfc1h hS.nfc1a]
  rw [getWinnerCode_eta S.nfc.wildCard2 "nfc-wc-3" _ _ hS.nfc2h hS.nfc2a]
  rw [getWinnerCode_eta S.afc.divisional0 "afc-div-1" _ _ hS.afcD0h hS.afcD0a]
  rw [getWinnerCode_eta S.afc.divisional1 "afc-div-2" _ _ hS.afcD1h hS.afcD1a]
  rw [getWinnerCode_eta S.nfc.divisional0 "nfc-div-1" _ _ hS.nfcD0h hS.nfcD0a]
  rw [getWinnerCode_eta S.nfc.divisional1 "nfc-div-2" _ _ hS.nfcD1h hS.nfcD1a]
  rw [getWinnerCode_eta S.afc.championship "afc-champ" _ _ hS.afcCh hS.afcCa]
  rw [getWinnerCode_eta S.nfc.championship "nfc-champ" _ _ hS.nfcCh hS.nfcCa]
  rw [getWinnerCode_eta S.superBowl "super-bowl" _ _ hS.sbH hS.sbA]

/-- C3: for every matchup (including one whose recorded winner matches neither
team slot), the winner code is: winner absent → 0, winner id equal to the home
id → 1, equal to the away id → 2, matching neither → 0; the derivation is a
total function (never throws). -/
theorem c3_winner_code_derivation (m : Matchup) : getWinnerCode m = winnerCodeSpec m := by
  unfold getWinnerCode winnerCodeSpec
  cases m.winner with
  | none => rfl
  | some w =>
    cases m.homeTeam <;> cases m.awayTeam <;>
      simp [Option.any_some, Option.any_none, beq_iff_eq] <;>
      split_ifs <;> omega

/-- C5: in applyPicksToFreshBracket, wild-card codes are applied directly to
the fresh seeding, and each later round's team slots are the ones derived from
the immediately preceding round's just-applied winners, with that round's own
code applied only to those freshly derived slots. -/
theorem c5_derive_then_apply (codes : List Nat) (userName : String) :
    (applyPicksToFreshBracket codes userName).afc.wildCard0 =
      applyCode (createInitialBracket userName).afc.wildCard0 (codes.getD 0 0) ∧
    (applyPicksToFreshBracket codes userName).afc.wildCard1 =
      applyCode (createInitialBracket userName).afc.wildCard1 (codes.getD 1 0) ∧
    (applyPicksToFreshBracket codes userName).afc.wildCard2 =
      applyCode (createInitialBracket userName).afc.wildCard2 (codes.getD 2 0) ∧
    (applyPicksToFreshBracket codes userName).nfc.wildCard0 =
      applyCode (createInitialBracket userName).nfc.wildCard0 (codes.getD 3 0) ∧
    (applyPicksToFreshBracket codes userName).nfc.wildCard1 =
      applyCode (createInitialBracket userName).nfc.wildCard1 (codes.getD 4 0) ∧
    (applyPicksToFreshBracket codes userName).nfc.wildCard2 =
      applyCode (createInitialBracket userName).nfc.wildCard2 (codes.getD 5 0) ∧
    (applyPicksToFreshBracket codes userName).afc.divisional0 = applyCode
      ⟨"afc-div-1",
       (calculateDivisionalMatchups Conference.AFC
         [(applyPicksToFreshBracket codes userName).afc.wildCard0.winner,
          (applyPicksToFreshBracket codes userName).afc.wildCard1.winner,
          (applyPicksToFreshBracket codes userName).afc.wildCard2.winner]).matchup1.home,
       (calculateDivisionalMatchups Conference.AFC
         [(applyPicksToFreshBracket codes userName).afc.wildCard0.winner,
          (applyPicksToFreshBracket codes userName).afc.wildCard1.winner,
          (applyPicksToFreshBracket codes userName).afc.wildCard2.winner]).matchup1.away,
       none⟩ (codes.getD 6 0) ∧
    (applyPicksToFreshBracket codes userName).afc.divisional1 = applyCode
      ⟨"afc-div-2",
       (calculateDivisionalMatchups Conference.AFC
         [(applyPicksToFreshBracket codes userName).afc.wildCard0.winner,
          (applyPicksToFreshBracket codes userName).afc.wildCard1.winner,
          (applyPicksToFreshBracket codes userName).afc.wildCard2.winner]).matchup2.home,
       (calculateDivisionalMatchups Conference.AFC
         [(applyPicksToFreshBracket codes userName).afc.wildCard0.winner,
          (applyPicksToFreshBracket codes userName).afc.wildCard1.winner,
          (applyPicksToFreshBracket codes userName).afc.wildCard2.winner]).matchup2.away,
       none⟩ (codes.getD 7 0) ∧
    (applyPicksToFreshBracket codes userName).nfc.divisional0 = applyCode
      ⟨"nfc-div-1",
       (calculateDivisionalMatchups Conference.NFC
         [(applyPicksToFreshBracket codes userName).nfc.wildCard0.winner,
          (applyPicksToFreshBracket codes userName).nfc.wildCard1.winner,
          (applyPicksToFreshBracket codes userName).nfc.wildCard2.winner]).matchup1.home,
       (calculateDivisionalMatchups Conference.NFC
         [(applyPicksToFreshBracket codes userName).nfc.wildCard0.winner,
          (applyPicksToFreshBracket codes userName).nfc.wildCard1.winner,
          (applyPicksToFreshBracket codes userName).nfc.wildCard2.winner]).matchup1.away,
       none⟩ (codes.getD 8 0) ∧
    (applyPicksToFreshBracket codes userName).nfc.divisional1 = applyCode
      ⟨"nfc-div-2",
       (calculateDivisionalMatchups Conference.NFC
         [(applyPicksToFreshBracket codes userName).nfc.wildCard0.winner,
          (applyPicksToFreshBracket codes userName).nfc.wildCard1.winner,
          (applyPicksToFreshBracket codes userName).nfc.wildCard2.winner]).matchup2.home,
       (calculateDivisionalMatchups Conference.NFC
         [(applyPicksToFreshBracket codes userName).nfc.wildCard0.winner,
          (applyPicksToFreshBracket codes userName).nfc.wildCard1.winner,
          (applyPicksToFreshBracket codes userName).nfc.wildCard2.winner]).matchup2.away,
       none⟩ (codes.getD 9 0) ∧
    (applyPicksToFreshBracket codes userName).afc.championship = applyCode
      ⟨"afc-champ",
       (calculateChampionshipMatchup
         [(applyPicksToFreshBracket codes userName).afc.divisional0.winner,
          (applyPicksToFreshBracket codes userName).afc.divisional1.winner]).home,
       (calculateChampionshipMatchup
         [(applyPicksToFreshBracket codes userName).afc.divisional0.winner,
          (applyPicksToFreshBracket codes userName).afc.divisional1.winner]).away,
       none⟩ (codes.getD 10 0) ∧
    (applyPicksToFreshBracket codes userName).nfc.championship = applyCode
      ⟨"nfc-champ",
       (calculateChampionshipMatchup
         [(applyPicksToFreshBracket codes userName).nfc.divisional0.winner,
          (applyPicksToFreshBracket codes userName).nfc.divisional1.winner]).home,
       (calculateChampionshipMatchup
         [(applyPicksToFreshBracket codes userName).nfc.divisional0.winner,
          (applyPicksToFreshBracket codes userName).nfc.divisional1.winner]).away,
       none⟩ (codes.getD 11 0) ∧
    (applyPicksToFreshBracket codes userName).superBowl = applyCode
      ⟨"super-bowl",
       (applyPicksToFreshBracket codes userName).afc.championship.winner,
       (applyPicksToFreshBracket codes userName).nfc.championship.winner,
       none⟩ (codes.getD 12 0) :=
  ⟨rfl, rfl, rfl, rfl, rfl, rfl, rfl, rfl, rfl, rfl, rfl, rfl, rfl⟩

/-- C6: a code of 1 or 2 whose referenced team slot is null results in no
winner being assigned, and applyCode is total (never raises). -/
theorem c6_null_slot_no_winner (m : Matchup) (code : Nat)
    (h : (code = 1 ∧ m.homeTeam = none) ∨ (code = 2 ∧ m.awayTeam = none)) :
    (applyCode m code).winner = none := by
  rcases h with ⟨rfl, hslot⟩ | ⟨rfl, hslot⟩ <;> simp [applyCode, hslot]

theorem c6_null_slot_no_winner_witness :
    ((1 = 1 ∧ (⟨"afc-div-1", none, none, none⟩ : Matchup).homeTeam = none) ∨
     (1 = 2 ∧ (⟨"afc-div-1", none, none, none⟩ : Matchup).awayTeam = none)) ∧
    (applyCode ⟨"afc-div-1", none, none, none⟩ 1).winner = none :=
  ⟨Or.inl ⟨rfl, rfl⟩,
   c6_null_slot_no_winner ⟨"afc-div-1", none, none, none⟩ 1 (Or.inl ⟨rfl, rfl⟩)⟩

/-- C9: the bracket in which only the Super Bowl is decided with the home team
as winner encodes to the packed value whose bits 24–25 hold the code 01 (bit
24 set, bit 25 clear) and whose other bits are all 0 (value 2 to the 24th). -/
theorem c9_superbowl_home_layout :
    bracketPacked onlySuperBowlHomeBracket = 16777216 ∧
    Nat.testBit (bracketPacked onlySuperBowlHomeBracket) 24 = true ∧
    Nat.testBit (bracketPacked onlySuperBowlHomeBracket) 25 = false ∧
    bracketCodes onlySuperBowlHomeBracket = [0, 0, 0, 0, 0, 0, 0, 0, 0, 0, 0, 0, 1] := by
  refine ⟨by decide, by decide, by decide, by decide⟩

/-- C1: for every valid BracketState S, applying the decoded codes of the
encoded picks of S to a fresh bracket with S's owner name produces a bracket
whose 13 matchups carry the same winner decisions (home, away or no pick, in
the fixed matchup order) as S; team identities are re-derived, not
transmitted. -/
theorem c1_codec_round_trip (S : BracketState) (hS : ValidBracket S) :
    (decodeBracketPicks (encodeBracketPicks S)).map
      (fun codes =>
        (getAllMatchupsOrdered (applyPicksToFreshBracket codes S.userName)).map getWinnerCode)
    = some ((getAllMatchupsOrdered S).map getWinnerCode) := by
  rw [decode_encode S]
  show some (bracketCodes (applyPicksToFreshBracket (bracketCodes S) S.userName))
    = some (bracketCodes S)
  rw [apply_codes_of_valid S hS]

theorem c1_codec_round_trip_witness :
    (decodeBracketPicks (encodeBracketPicks (createInitialBracket "Alice"))).map
      (fun codes =>
        (getAllMatchupsOrdered (applyPicksToFreshBracket codes "Alice")).map getWinnerCode)
    = some ((getAllMatchupsOrdered (createInitialBracket "Alice")).map getWinnerCode) := by
  have hv : ValidBracket (createInitialBracket "Alice") := by
    constructor <;> first | rfl | (intro w hw; exact Option.noConfusion hw)
  exact c1_codec_round_trip (createInitialBracket "Alice") hv

/-- C2: encodeBracketPicks packs the 13 two-bit winner codes little-endian
into the 32-bit value (code i is base-4 digit i, occupying bits 2i and 2i+1),
byte 0 of the 4-byte output holds bits 0–7, and the codes are taken in the
fixed matchup order 0–2 AFC WC, 3–5 NFC WC, 6–7 AFC Div, 8–9 NFC Div, 10 AFC
Champ, 11 NFC Champ, 12 Super Bowl. -/
theorem c2_encode_bit_layout (b : BracketState) (i : Nat) (hi : i < 13) :
    bracketPacked b / 4 ^ i % 4 = (bracketCodes b).getD i 0 ∧
    (bracketBytes b).getD 0 0 = bracketPacked b % 256 ∧
    bracketCodes b = [getWinnerCode b.afc.wildCard0, getWinnerCode b.afc.wildCard1,
      getWinnerCode b.afc.wildCard2, getWinnerCode b.nfc.wildCard0,
      getWinnerCode b.nfc.wildCard1, getWinnerCode b.nfc.wildCard2,
      getWinnerCode b.afc.divisional0, getWinnerCode b.afc.divisional1,
      getWinnerCode b.nfc.divisional0, getWinnerCode b.nfc.divisional1,
      getWinnerCode b.afc.championship, getWinnerCode b.nfc.championship,
      getWinnerCode b.superBowl] := by
  have hb0 := getWinnerCode_lt_four b.afc.wildCard0
  have hb1 := getWinnerCode_lt_four b.afc.wildCard1
  have hb2 := getWinnerCode_lt_four b.afc.wildCard2
  have hb3 := getWinnerCode_lt_four b.nfc.wildCard0
  have hb4 := getWinnerCode_lt_four b.nfc.wildCard1
  have hb5 := getWinnerCode_lt_four b.nfc.wildCard2
  have hb6 := getWinnerCode_lt_four b.afc.divisional0
  have hb7 := getWinnerCode_lt_four b.afc.divisional1
  have hb8 := getWinnerCode_lt_four b.nfc.divisional0
  have hb9 := getWinnerCode_lt_four b.nfc.divisional1
  have hb10 := getWinnerCode_lt_four b.afc.championship
  have hb11 := getWinnerCode_lt_four b.nfc.championship
  have hb12 := getWinnerCode_lt_four b.superBowl
  have hp : bracketPacked b =
      getWinnerCode b.afc.wildCard0 + 4 * getWinnerCode b.afc.wildCard1 +
      16 * getWinnerCode b.afc.wildCard2 + 64 * getWinnerCode b.nfc.wildCard0 +
      256 * getWinnerCode b.nfc.wildCard1 + 1024 * getWinnerCode b.nfc.wildCard2 +
      4096 * getWinnerCode b.afc.divisional0 + 16384 * getWinnerCode b.afc.divisional1 +
      65536 * getWinnerCode b.nfc.divisional0 + 262144 * getWinnerCode b.nfc.divisional1 +
      1048576 * getWinnerCode b.afc.championship + 4194304 * getWinnerCode b.nfc.championship +
      16777216 * getWinnerCode b.superBowl :=
    packCodes_13 _ _ _ _ _ _ _ _ _ _ _ _ _
      hb0 hb1 hb2 hb3 hb4 hb5 hb6 hb7 hb8 hb9 hb10 hb11 hb12
  have hc : bracketCodes b = [getWinnerCode b.afc.wildCard0, getWinnerCode b.afc.wildCard1,
      getWinnerCode b.afc.wildCard2, getWinnerCode b.nfc.wildCard0,
      getWinnerCode b.nfc.wildCard1, getWinnerCode b.nfc.wildCard2,
      getWinnerCode b.afc.divisional0, getWinnerCode b.afc.divisional1,
      getWinnerCode b.nfc.divisional0, getWinnerCode b.nfc.divisional1,
      getWinnerCode b.afc.championship, getWinnerCode b.nfc.championship,
      getWinnerCode b.superBowl] := rfl
  refine ⟨?_, ?_, hc⟩
  · rw [hp, hc]
    interval_cases i <;>
      simp only [List.getD_cons_zero, List.getD_cons_succ] <;> norm_num <;> omega
  · show bracketPacked b >>> 0 &&& 255 = bracketPacked b % 256
    rw [Nat.shiftRight_eq_div_pow, and_255_eq_mod]
    norm_num

theorem c2_encode_bit_layout_witness :
    bracketPacked onlySuperBowlHomeBracket / 4 ^ 12 % 4 =
      (bracketCodes onlySuperBowlHomeBracket).getD 12 0 ∧
    (bracketBytes onlySuperBowlHomeBracket).getD 0 0 =
      bracketPacked onlySuperBowlHomeBracket % 256 ∧
    bracketCodes onlySuperBowlHomeBracket =
      [getWinnerCode onlySuperBowlHomeBracket.afc.wildCard0,
       getWinnerCode onlySuperBowlHomeBracket.afc.wildCard1,
       getWinnerCode onlySuperBowlHomeBracket.afc.wildCard2,
       getWinnerCode onlySuperBowlHomeBracket.nfc.wildCard0,
       getWinnerCode onlySuperBowlHomeBracket.nfc.wildCard1,
       getWinnerCode onlySuperBowlHomeBracket.nfc.wildCard2,
       getWinnerCode onlySuperBowlHomeBracket.afc.divisional0,
       getWinnerCode onlySuperBowlHomeBracket.afc.divisional1,
       getWinnerCode onlySuperBowlHomeBracket.nfc.divisional0,
       getWinnerCode onlySuperBowlHomeBracket.nfc.divisional1,
       getWinnerCode onlySuperBowlHomeBracket.afc.championship,
       getWinnerCode onlySuperBowlHomeBracket.nfc.championship,
       getWinnerCode onlySuperBowlHomeBracket.superBowl] :=
  c2_encode_bit_layout onlySuperBowlHomeBracket 12 (by norm_num)

/-- C7: the bracket returned by applyPicksToFreshBracket carries an isComplete
flag equal to the recomputed completion predicate over the resulting bracket
(true iff all 13 matchups have a non-empty winner), not a transmitted value. -/
theorem c7_isComplete_recomputed (codes : List Nat) (userName : String) :
    (applyPicksToFreshBracket codes userName).isComplete = true ↔
      ∀ m ∈ getAllMatchupsOrdered (applyPicksToFreshBracket codes userName),
        m.winner ≠ none := by
  show isBracketComplete (applyPicksToFreshBracket codes userName) = true ↔ _
  simp [isBracketComplete, List.all_eq_true, Option.isSome_iff_ne_none]

/-- C8: the encoded token is the standard base64 rendering of the 4 packed
bytes with plus replaced by hyphen, slash replaced by underscore, and trailing
padding stripped; the token is at most 6 characters long. -/
theorem c8_encode_rendering (b : BracketState) :
    encodeBracketPicks b =
      String.mk (stripTrailingEq ((btoaBytes (bracketBytes b)).map base64UrlSubst)) ∧
    (encodeBracketPicks b).length ≤ 6 := by
  refine ⟨rfl, ?_⟩
  show (stripTrailingEq ((btoaBytes (bracketBytes b)).map base64UrlSubst)).length ≤ 6
  have hbtoa : (btoaBytes (bracketBytes b)).map base64UrlSubst =
      [base64UrlSubst (b64Char ((bracketPacked b >>> 0 &&& 255) / 4)),
       base64UrlSubst (b64Char ((bracketPacked b >>> 0 &&& 255) % 4 * 16 +
         (bracketPacked b >>> 8 &&& 255) / 16)),
       base64UrlSubst (b64Char ((bracketPacked b >>> 8 &&& 255) % 16 * 4 +
         (bracketPacked b >>> 16 &&& 255) / 64)),
       base64UrlSubst (b64Char ((bracketPacked b >>> 16 &&& 255) % 64)),
       base64UrlSubst (b64Char ((bracketPacked b >>> 24 &&& 255) / 4)),
       base64UrlSubst (b64Char ((bracketPacked b >>> 24 &&& 255) % 4 * 16)),
       '=', '='] := rfl
  rw [hbtoa, strip_six _ _ _ _ _ _ (subst_b64Char_ne_eq _)]
  simp

theorem b64Index_lt {c : Char} {n : Nat} (h : b64Index c = some n) : n < 64 := by
  unfold b64Index at h
  split_ifs at h <;> (injection h with h2; omega)

theorem mapM_b64Index_lt :
    ∀ (l : List Char) (res : List Nat), List.mapM b64Index l = some res →
      ∀ x ∈ res, x < 64 := by
  intro l
  induction l with
  | nil =>
    intro res h x hx
    simp only [List.mapM_nil, Option.pure_def, Option.some.injEq] at h
    subst h
    simp at hx
  | cons c cs ih =>
    intro res h x hx
    rw [List.mapM_cons] at h
    cases hc : b64Index c with
    | none => rw [hc] at h; simp at h
    | some n =>
      rw [hc] at h
      cases hcs : List.mapM b64Index cs with
      | none => rw [hcs] at h; simp at h
      | some ns =>
        rw [hcs] at h
        simp at h
        subst h
        rcases List.mem_cons.mp hx with rfl | hmem
        · exact b64Index_lt hc
        · exact ih ns hcs x hmem

theorem sextetsToBytes_lt :
    ∀ (l : List Nat), (∀ s ∈ l, s < 64) → ∀ b ∈ sextetsToBytes l, b < 256
  | [], _ => by simp [sextetsToBytes]
  | [s0], _ => by simp [sextetsToBytes]
  | [s0, s1], h => by
    have h0 := h s0 (by simp)
    have h1 := h s1 (by simp)
    simp only [sextetsToBytes, List.mem_singleton]
    intro b hb
    subst hb
    omega
  | [s0, s1, s2], h => by
    have h0 := h s0 (by simp)
    have h1 := h s1 (by simp)
    have h2 := h s2 (by simp)
    intro b hb
    rcases List.mem_cons.mp hb with rfl | hb2
    · omega
    · rcases List.mem_singleton.mp hb2 with rfl
      omega
  | s0 :: s1 :: s2 :: s3 :: rest, h => by
    have h0 := h s0 (by simp)
    have h1 := h s1 (by simp)
    have h2 := h s2 (by simp)
    have h3 := h s3 (by simp)
    intro b hb
    rcases List.mem_cons.mp hb with rfl | hb2
    · omega
    · rcases List.mem_cons.mp hb2 with rfl | hb3
      · omega
      · rcases List.mem_cons.mp hb3 with rfl | hb4
        · omega
        · exact sextetsToBytes_lt rest
            (fun s hs => h s (by simp [List.mem_cons] at hs ⊢; tauto)) b hb4

theorem atob_bytes_lt (s : List Char) (bytes : List Nat) (h : atob s = some bytes) :
    ∀ b ∈ bytes, b < 256 := by
  simp only [atob] at h
  split at h
  all_goals
    split at h
    · exact absurd h (by simp)
    · split at h
      · exact absurd h (by simp)
      · rename_i sextets heq
        simp only [Option.some.injEq] at h
        subst h
        exact sextetsToBytes_lt sextets (mapM_b64Index_lt _ _ heq)

/-- C10: a token whose base64 decoding succeeds with fewer than 4 bytes does
not make decodeBracketPicks fail: it still returns exactly 13 codes, each
below 4, and every code whose bit positions lie beyond the decoded bytes
is 0. -/
theorem c10_short_token_zero_fill (s : String) (bytes : List Nat)
    (hdec : atob (padBase64 (s.toList.map base64UrlRestore)) = some bytes)
    (hlen : bytes.length < 4) :
    ∃ codes, decodeBracketPicks s = some codes ∧ codes.length = 13 ∧
      (∀ c ∈ codes, c < 4) ∧ ∀ i, 4 * bytes.length ≤ i → codes.getD i 0 = 0 := by
  have hb := atob_bytes_lt _ _ hdec
  have hplt : (bytes.getD 0 0 ||| bytes.getD 1 0 <<< 8 ||| bytes.getD 2 0 <<< 16 |||
      bytes.getD 3 0 <<< 24) < 2 ^ (8 * bytes.length) := by
    rcases bytes with _ | ⟨b0, _ | ⟨b1, _ | ⟨b2, _ | ⟨b3, rest⟩⟩⟩⟩
    · decide
    · have hb0 := hb b0 (by simp)
      simp only [List.getD_cons_zero, List.getD_cons_succ, List.getD_nil,
        Nat.zero_shiftLeft, Nat.or_zero, List.length_singleton]
      norm_num
      omega
    · have hb0 := hb b0 (by simp)
      have hb1 := hb b1 (by simp)
      simp only [List.getD_cons_zero, List.getD_cons_succ, List.getD_nil,
        Nat.zero_shiftLeft, Nat.or_zero]
      rw [lor_shiftLeft_eq_add b1 8 (by omega)]
      norm_num
      omega
    · have hb0 := hb b0 (by simp)
      have hb1 := hb b1 (by simp)
      have hb2 := hb b2 (by simp)
      simp only [List.getD_cons_zero, List.getD_cons_succ, List.getD_nil,
        Nat.zero_shiftLeft, Nat.or_zero]
      rw [lor_shiftLeft_eq_add b1 8 (by omega)]
      rw [lor_shiftLeft_eq_add b2 16 (by norm_num; omega)]
      norm_num
      omega
    · simp at hlen
      omega
  simp only [decodeBracketPicks]
  rw [hdec]
  refine ⟨_, rfl, by simp, ?_, ?_⟩
  · intro c hc
    obtain ⟨i, hi13, rfl⟩ := List.mem_map.mp hc
    rw [and_three_eq_mod]
    omega
  · intro i hi
    by_cases h13 : i < 13
    · rw [List.getD_eq_getElem?_getD, List.getElem?_map, List.getElem?_range h13]
      simp only [Option.map_some', Option.getD_some]
      rw [shiftRight_double_and_three]
      have hexp : (4 : Nat) ^ (4 * bytes.length) = 2 ^ (8 * bytes.length) := by
        rw [show (4 : Nat) = 2 ^ 2 from rfl, ← Nat.pow_mul]
        congr 1
        omega
      have hlt : (bytes.getD 0 0 ||| bytes.getD 1 0 <<< 8 ||| bytes.getD 2 0 <<< 16 |||
          bytes.getD 3 0 <<< 24) < 4 ^ i := by
        calc (bytes.getD 0 0 ||| bytes.getD 1 0 <<< 8 ||| bytes.getD 2 0 <<< 16 |||
            bytes.getD 3 0 <<< 24) < 2 ^ (8 * bytes.length) := hplt
          _ = 4 ^ (4 * bytes.length) := hexp.symm
          _ ≤ 4 ^ i := Nat.pow_le_pow_right (by norm_num) hi
      rw [Nat.div_eq_of_lt hlt]
    · rw [List.getD_eq_getElem?_getD, List.getElem?_eq_none (by simp; omega)]
      rfl

theorem c10_short_token_zero_fill_witness :
    atob (padBase64 (("AA".toList).map base64UrlRestore)) = some [0] ∧
    ([0] : List Nat).length < 4 ∧
    (∃ codes, decodeBracketPicks "AA" = some codes ∧ codes.length = 13 ∧
      (∀ c ∈ codes, c < 4) ∧ ∀ i, 4 * ([0] : List Nat).length ≤ i → codes.getD i 0 = 0) :=
  ⟨by decide, by decide,
   c10_short_token_zero_fill "AA" [0] (by decide) (by decide)⟩

/-- C4 counterexample: the token "AA" base64-decodes to a single byte (fewer
than 4), yet decodeBracketPicks does not signal an error — it returns 13
codes.  Likewise "++++++" consists of characters outside the base64url
alphabet, yet decodes without error.  This refutes the claim that such tokens
produce a CodecError. -/
theorem c4_counterexample :
    atob (padBase64 (("AA".toList).map base64UrlRestore)) = some [0] ∧
    decodeBracketPicks "AA" = some [0, 0, 0, 0, 0, 0, 0, 0, 0, 0, 0, 0, 0] ∧
    decodeBracketPicks "++++++" = some [3, 2, 3, 3, 3, 3, 2, 3, 2, 3, 3, 2, 3] := by
  refine ⟨by decide, by decide, by decide⟩

/-- C4 (amended): decodeBracketPicks signals an error exactly when the
forgiving-base64 decode rejects the substituted and padded token (a character
outside the base64 alphabet, or an invalid length or padding structure); a
token that decodes to fewer than 4 bytes is not an error — the missing bytes
are read as 0.  Witnessed concretely by "A" (rejected) and "AA" (accepted and
zero-filled). -/
theorem c4_error_iff_base64_rejects :
    (∀ s : String, decodeBracketPicks s = none ↔
      atob (padBase64 (s.toList.map base64UrlRestore)) = none) ∧
    decodeBracketPicks "A" = none ∧
    decodeBracketPicks "AA" = some [0, 0, 0, 0, 0, 0, 0, 0, 0, 0, 0, 0, 0] := by
  refine ⟨?_, by decide, by decide⟩
  intro s
  simp only [decodeBracketPicks]
  cases h : atob (padBase64 (s.toList.map base64UrlRestore)) with
  | none => simp
  | some bytes => simp

end BracketBuild
